import Mathlib

/-!
Verification of the VectorBase-to-SCAN export pipeline (`scan.py`).

The development shallowly embeds the record-processing core of `make_scan`:
vocabulary tables, the tag/provenance step, the record filter, the
species/taxonomy extractor, the geographic and remarks extractors, the
per-record driver loop (with optional random sampling modelled as an
explicit decision stream), and the end-of-run commit protocol over a tiny
file-system model (final path and staging path).

Python exceptions (IndexError on list indexing, KeyError on missing dict
keys) are modelled with `Except Fault`; the Problem messages built with
`str.format` are modelled as a structured `Problem` datatype carrying the
same data (category, offending value, record identifier).
-/

/-- Fault raised by the original code on malformed input: Python IndexError
or KeyError, tagged with the access site. -/
inductive Fault where
  | indexError (site : String)
  | keyError (site : String)
  deriving DecidableEq, Repr

/-- A recorded data-quality anomaly. Mirrors the three `problems.append`
sites of `make_scan`: the format-string messages are modelled structurally,
each carrying the category, the offending value and the identifier of the
record being processed when the Problem was appended. -/
inductive Problem where
  | unexpectedTags (tags : List String) (recordId : String)
  | unknownFirstTerm (term : String) (recordId : String)
  | unknownThirdTerm (term : String) (recordId : String)
  deriving DecidableEq, Repr

/-- The record identifier a Problem message mentions. -/
def Problem.rid : Problem → String
  | .unexpectedTags _ i => i
  | .unknownFirstTerm _ i => i
  | .unknownThirdTerm _ i => i

/-- Python `str.join` / `";".join(...)`: interpose the separator between
the elements. Implemented by structural recursion on the list so that it
reduces inside the kernel. -/
def strIntercalate (sep : String) : List String → String
  | [] => ""
  | [x] => x
  | x :: y :: xs => x ++ sep ++ strIntercalate sep (y :: xs)

/-- The deduplication key the code checks before appending: the joined tag
text for tag problems, the offending term for the species-term problems. -/
def Problem.dedupKey : Problem → String
  | .unexpectedTags ts _ => strIntercalate "," ts
  | .unknownFirstTerm t _ => t
  | .unknownThirdTerm t _ => t

/-- Problem category, numbered by collector: 0 = unexpected tags,
1 = unknown first species term, 2 = unknown third species term. -/
def Problem.category : Problem → Nat
  | .unexpectedTags _ _ => 0
  | .unknownFirstTerm _ _ => 1
  | .unknownThirdTerm _ _ => 2

/-- Category paired with dedup key: the code records at most one Problem
per such pair per run. -/
def catKey (p : Problem) : Nat × String := (p.category, p.dedupKey)

/-- Splitting helper: cut the character list at every character satisfying
the predicate, keeping empty segments. `cur` holds the characters of the
current segment, reversed. -/
def splitCharsAux (p : Char → Bool) : List Char → List Char → List (List Char)
  | [], cur => [cur.reverse]
  | c :: cs, cur =>
      if p c then cur.reverse :: splitCharsAux p cs []
      else splitCharsAux p cs (c :: cur)

/-- Python `str.split()` with no separator: split on whitespace and drop
the empty segments (so runs of whitespace count once and leading/trailing
whitespace is ignored). -/
def pySplitWhite (s : String) : List String :=
  ((splitCharsAux (fun c => c.isWhitespace) s.data []).filter
    (fun t => t != [])).map (fun l => ⟨l⟩)

/-- Python `str.split(",")`: split at every comma, keeping empty fields
(so a string with no comma yields a single segment). -/
def pySplitComma (s : String) : List String :=
  (splitCharsAux (fun c => c == ',') s.data []).map (fun l => ⟨l⟩)

/-- The text before the first occurrence of the two-character separator
`" ("`: Python `s.split(" (")[0]`, used for the location fields. -/
def beforeParenAux : List Char → List Char
  | [] => []
  | ' ' :: '(' :: _ => []
  | c :: cs => c :: beforeParenAux cs

/-- Python `s.split(" (")[0]` as a String operation. -/
def pyBeforeParen (s : String) : String := ⟨beforeParenAux s.data⟩

/-- Python `s.replace(" ", "+")`: single-character replacement is a map
over the characters. -/
def replaceSpacePlus (s : String) : String :=
  ⟨s.data.map (fun c => if c == ' ' then '+' else c)⟩

/-- Python `s[:10]`: the first `n` characters. -/
def pyTake (s : String) (n : Nat) : String := ⟨s.data.take n⟩

/-- Species strings to transform to other strings (`transform_species_strings`). -/
def transform_species_strings : List (String × String) :=
  [("Anopheles gambiae x Anopheles coluzzii", "Anopheles gambiae sensu lato"),
   ("dirus species complex", "Anopheles dirus complex")]

/-- The table lookup at the top of the species section of `make_scan`. -/
def applyTransform (s : String) : String :=
  match transform_species_strings.find? (fun p => p.1 == s) with
  | some p => p.2
  | none => s

/-- The first species term must appear in this set (`valid_first_species_terms`). -/
def valid_first_species_terms : List String :=
  ["Aedeomyia", "Aedes", "Aedimorphus", "Anopheles", "Catageiomyia",
   "Ceratopogonidae", "Chironomidae", "Coquillettidia", "Culex", "Culicidae",
   "Culicinae", "Culiciomyia", "Culicoides", "Culiseta", "Eumelanomyia",
   "Lophoceraomyia", "Mansonia", "Mimomyia", "Oculeomyia", "Orthopodomyia",
   "Phlebotomus", "Psorophora", "Sergentomyia", "Simuliidae",
   "Toxorhynchites", "Uranotaenia", "Wyeomyia", "Avaritia", "Lutzomyia",
   "Melanoconion", "Ochlerotatus", "Deinocerites", "Anophelinae",
   "Amblyomma", "Dermacentor", "Ixodes", "Rhipicephalus", "Armigeres"]

/-- Third species terms accepted as subspecies (`subspecies_terms`). -/
def subspecies_terms : List String :=
  ["japonicus", "arabiensis", "vexans", "S", "T", "pallens"]

/-- Third species terms accepted as group qualifiers (`group_terms`). -/
def group_terms : List String :=
  ["morphological", "group", "complex", "sensu", "lato", "AD", "BCE", "subgroup"]

/-- Tags to remove from the tags list (`remove_tags`). -/
def remove_tags : List String := ["abundance", "viral surveillance"]

/-- The provider tag must appear in this set (`valid_provider_tags`). -/
def valid_provider_tags : List String :=
  ["Anastasia Mosquito Control District Florida",
   "Marion County Public Health Department Indiana",
   "Hernando County Florida Mosquito Control",
   "Biogents Mosquito Surveillance",
   "Northwest Mosquito and Vector Control District",
   "Collier Mosquito Control District",
   "Iowa State Mosquito Surveillance",
   "Manatee County Florida Mosquito Control",
   "Cass County Vector Control District",
   "Salt Lake City Mosquito Abatement District",
   "Southern Nevada Health District",
   "Entomology Group Pirbright",
   "Orange County Florida Mosquito Control",
   "ICEMR",
   "Rhode Island Department of Environmental Management",
   "South Walton County Florida Mosquito Control",
   "Toledo Area Sanitary District",
   "Ada County Weed Pest and Mosquito Abatement",
   "Marion County Public Health Department, Indiana",
   "Lee County Mosquito Control",
   "Desplaines Valley Mosquito Abatement",
   "Anastasia Mosquito Control District, Florida",
   "Entomology Group, Pirbright",
   "Ada County Weed, Pest, and Mosquito Abatement",
   "Lee County Mosquito Control",
   "DesPlaines Valley Mosquito Abatement",
   "Franklin County Public Health",
   "Commonwealth Scientific and Industrial Research Organisation",
   "North Dakota Department of Health",
   "Tarrant County Public Health Department",
   "Montana State Mosquito Surveillance",
   "City of Suffolk Mosquito Control",
   "Illinois Natural History Survey",
   "Norfolk County Mosquito Control",
   "Maryland Department of Agriculture",
   "Florida Keys Mosquito Control District",
   "Volusia County Mosquito Control"]

/-- Skip records with any of these provider tags (`skip_provider_tags`):
empty in the source. -/
def skip_provider_tags : List String := []

/-- Collection protocols must appear in this set (`valid_protocols`). -/
def valid_protocols : List String :=
  ["morphological examination", "PCR-based species identification", "by size"]

/-- Skip records with any of these collection protocols (`skip_protocols`). -/
def skip_protocols : List String := ["BG-Counter trap catch"]

/-- IDs of projects to skip (`skip_projects`): empty in the source. -/
def skip_projects : List String := []

/-- A raw Solr record after the `defaults.update(record)` step of the loop:
the twelve fields the defaults dict covers always hold a value (the Lean
default field values are exactly the Python defaults), while the fields the
defaults dict does not cover and the code accesses unconditionally are
plain when the access would otherwise always raise at the same place
(`sample_id_s`, `sample_size_i`), and optional when the code either guards
the access (`tags_ss`, via `"tags_ss" in record`) or can genuinely fault on
absence (`geo_coords`, KeyError at the coordinates step). `species` keeps
its list shape because `record["species"][0]` can raise IndexError. -/
structure RawRecord where
  sample_id_s : String
  projects : List String := [""]
  species : List String
  geo_coords : Option String := none
  country_s : String := ""
  adm1_s : String := ""
  adm2_s : String := ""
  collection_protocols : List String := [""]
  collection_day_s : String := ""
  collection_date_range : List String := [""]
  protocols : List String := [""]
  sample_size_i : Int
  exp_citations_ss : List String := [""]
  tags_ss : Option (List String) := none
  sex_s : String := ""
  dev_stages_ss : List String := [""]
  project_authors_txt : List String := [""]

/-- One output CSV row (`output_row`), fields in the `output_rows` order.
`identificationQualifier` is `none` when the dict never receives the key;
the CSV writer then emits the empty-string restval. -/
structure OutputRow where
  occurrenceID : String
  catalogNumber : String
  dataGeneralizations : String
  basisOfRecord : String
  individualCount : Int
  sex : String
  lifeStage : String
  references : String
  recordedBy : String
  eventDate : String
  verbatimEventDate : String
  samplingProtocol : String
  country : String
  stateProvince : String
  locality : String
  decimalLatitude : String
  decimalLongitude : String
  identificationRemarks : String
  scientificName : String
  identificationQualifier : Option String
  occurrenceRemarks : String
  deriving DecidableEq, Repr

/-- The mutable collector state of one run: the `problems` list and the
three per-category deduplication sets (modelled as lists used as sets). -/
structure ScanState where
  problems : List Problem
  problem_tags : List String
  problem_first_species_terms : List String
  problem_third_species_terms : List String
  deriving DecidableEq, Repr

/-- The empty collector state initialised before the record loop. -/
def initState : ScanState :=
  { problems := [], problem_tags := [],
    problem_first_species_terms := [], problem_third_species_terms := [] }

/-- The common shape of the three recording sites: check the category's
dedup set for the offending value; if absent, add it and append the
Problem to the list; otherwise leave the state unchanged. -/
def recordProblem (s : ScanState) (p : Problem) : ScanState :=
  match p with
  | Problem.unexpectedTags ts _ =>
      let k := strIntercalate "," ts
      if s.problem_tags.contains k then s
      else { s with problem_tags := k :: s.problem_tags,
                    problems := s.problems ++ [p] }
  | Problem.unknownFirstTerm t _ =>
      if s.problem_first_species_terms.contains t then s
      else { s with problem_first_species_terms := t :: s.problem_first_species_terms,
                    problems := s.problems ++ [p] }
  | Problem.unknownThirdTerm t _ =>
      if s.problem_third_species_terms.contains t then s
      else { s with problem_third_species_terms := t :: s.problem_third_species_terms,
                    problems := s.problems ++ [p] }

/-- The tag step of the loop: when `tags_ss` is present, drop the
`remove_tags` entries; a nonempty remainder that is not a single valid
provider tag records an unexpected-tags Problem. Returns the effective tag
list and the updated state. -/
def processTags (s : ScanState) (r : RawRecord) : List String × ScanState :=
  match r.tags_ss with
  | none => ([], s)
  | some ts =>
      let tags := ts.filter (fun t => !(remove_tags.contains t))
      if tags.length > 0 &&
          (tags.length > 1 || !(valid_provider_tags.contains (tags.headD ""))) then
        (tags, recordProblem s (Problem.unexpectedTags tags r.sample_id_s))
      else (tags, s)

/-- The discard condition of the loop (the `continue` after the tag step):
first remaining tag in `skip_provider_tags`, or any collection protocol in
`skip_protocols`, or any project in `skip_projects`. -/
def filterCondition (tags : List String) (r : RawRecord) : Bool :=
  (tags != [] && skip_provider_tags.contains (tags.headD ""))
    || r.collection_protocols.any (fun p => skip_protocols.contains p)
    || r.projects.any (fun p => skip_projects.contains p)

/-- Rank-marker handling: `del species_terms[0]` when the first term is the
literal "genus" or "subgenus". -/
def markerDropped (terms : List String) : List String :=
  match terms with
  | [] => []
  | t0 :: rest => if t0 == "genus" || t0 == "subgenus" then rest else terms

/-- The species section of `make_scan` (lines 345-394): transform table,
whitespace tokenization, rank-marker drop, genus vocabulary check (with
Problem on failure, proceeding anyway), scientific-name assembly from the
first two terms, third-term classification (subspecies / group qualifier /
Problem), and fourth-term qualifier append when exactly four terms.
Returns the updated state, the scientificName and the
identificationQualifier; faults with IndexError when `species_terms[0]` is
taken of an empty token list (empty designation, or a lone rank marker). -/
def extractSpecies (s : ScanState) (rid : String) (raw : String) :
    Except Fault (ScanState × String × Option String) :=
  match markerDropped (pySplitWhite (applyTransform raw)) with
  | [] => Except.error (Fault.indexError "species_terms 0")
  | first :: rest =>
      let s1 := if valid_first_species_terms.contains first then s
                else recordProblem s (Problem.unknownFirstTerm first rid)
      match rest with
      | [] => Except.ok (s1, first, none)
      | second :: rest2 =>
          let name := first ++ " " ++ second
          match rest2 with
          | [] => Except.ok (s1, name, none)
          | third :: rest3 =>
              let step :=
                if subspecies_terms.contains third then
                  (name ++ " " ++ third, (none : Option String), s1)
                else if group_terms.contains third then
                  (name, some third, s1)
                else
                  (name, none, recordProblem s1 (Problem.unknownThirdTerm third rid))
              if rest3.length == 1 then
                match step.2.1 with
                | none => Except.ok (step.2.2, step.1, some ("" ++ rest3.headD ""))
                | some q => Except.ok (step.2.2, step.1, some (q ++ " " ++ rest3.headD ""))
              else Except.ok (step.2.2, step.1, step.2.1)

/-- One iteration of the record loop after default filling and the sampling
decision: tag step, discard condition (`Except.ok (s, none)` when the
record is skipped), then the extractors in source order — species,
coordinates, location, date, remarks — building the output row. Faults
mirror the Python exceptions: `species[0]` on an empty list, the species
IndexError inside `extractSpecies`, KeyError on a missing `geo_coords`,
IndexError on `coordinates[1]` when the coordinate string has no comma,
and IndexError on `exp_citations_ss[0]` of an empty citation list. -/
def processRecord (s : ScanState) (r : RawRecord) :
    Except Fault (ScanState × Option OutputRow) :=
  let ts := processTags s r
  let tags := ts.1
  let s1 := ts.2
  if filterCondition tags r then Except.ok (s1, none)
  else
    match r.species with
    | [] => Except.error (Fault.indexError "species 0")
    | speciesRaw :: _ =>
        match extractSpecies s1 r.sample_id_s speciesRaw with
        | Except.error f => Except.error f
        | Except.ok (s2, sciName, qual) =>
            match r.geo_coords with
            | none => Except.error (Fault.keyError "geo_coords")
            | some geo =>
                match pySplitComma geo with
                | [] => Except.error (Fault.indexError "coordinates 1")
                | [_] => Except.error (Fault.indexError "coordinates 1")
                | c0 :: c1 :: _ =>
                    match r.exp_citations_ss with
                    | [] => Except.error (Fault.indexError "exp_citations_ss 0")
                    | cite0 :: _ =>
                        let link0 :=
                          "https://vectorbase.org/popbio-map/web/?view=abnd&zoom_level=11"
                            ++ "&center=" ++ geo
                        let authorLink :=
                          if tags != [] then
                            (" authored by " ++ tags.headD "",
                             link0 ++ "&tag=" ++ replaceSpacePlus (tags.headD ""))
                          else
                            ("", r.projects.foldl
                              (fun link p => link ++ "&projectID[]=" ++ p) link0)
                        let generatorText :=
                          if cite0 != "" then
                            ", including " ++ strIntercalate "; " r.exp_citations_ss
                          else ""
                        let row : OutputRow :=
                          { occurrenceID := r.sample_id_s
                            catalogNumber := r.sample_id_s
                            dataGeneralizations := strIntercalate ";" r.projects
                            basisOfRecord := "HumanObservation"
                            individualCount := r.sample_size_i
                            sex := r.sex_s
                            lifeStage := strIntercalate ";" r.dev_stages_ss
                            references := strIntercalate ";" r.exp_citations_ss
                            recordedBy := strIntercalate ";" r.project_authors_txt
                            eventDate := pyTake r.collection_day_s 10
                            verbatimEventDate := strIntercalate ";" r.collection_date_range
                            samplingProtocol := strIntercalate ";" r.collection_protocols
                            country := pyBeforeParen r.country_s
                            stateProvince := pyBeforeParen r.adm1_s
                            locality := pyBeforeParen r.adm2_s
                            decimalLatitude := c0
                            decimalLongitude := c1
                            identificationRemarks := strIntercalate ";"
                              (r.protocols.filter (fun p => valid_protocols.contains p))
                            scientificName := sciName
                            identificationQualifier := qual
                            occurrenceRemarks :=
                              "This record has been curated by VectorBase.org as part of a larger data set"
                                ++ authorLink.1
                                ++ " which can be seen in context at " ++ authorLink.2
                                ++ ". Please cite VectorBase and the original data generator(s)"
                                ++ generatorText ++ "." }
                        Except.ok (s2, some row)

/-- The sampling decision: with sampling enabled the record is dropped when
the pseudo-random draw is at least `sample / 100`
(`random.random() >= sample / 100`). -/
def sampleDrop (sample : Option Rat) (draw : Rat) : Bool :=
  match sample with
  | none => false
  | some p => decide (p / 100 ≤ draw)

/-- The record loop: one sampling draw per record in input order (the
stream is indexed by record position), then `processRecord`; rows written
to the staging sink accumulate in order. A fault aborts the whole run, as
an uncaught Python exception would. -/
def runRecords (sample : Option Rat) (stream : Nat → Rat) :
    List RawRecord → Nat → ScanState → List OutputRow →
    Except Fault (ScanState × List OutputRow)
  | [], _, s, rows => Except.ok (s, rows)
  | r :: rest, i, s, rows =>
      if sampleDrop sample (stream i) then
        runRecords sample stream rest (i + 1) s rows
      else
        match processRecord s r with
        | Except.error f => Except.error f
        | Except.ok (s2, none) => runRecords sample stream rest (i + 1) s2 rows
        | Except.ok (s2, some row) => runRecords sample stream rest (i + 1) s2 (rows ++ [row])

/-- The observable outcome of a completed run: content of the final output
path, content of the staging path (`output + ".temp"`), the problem report
printed to the operator, and the process exit code. -/
structure RunOutcome where
  finalFile : Option (List OutputRow)
  tempFile : Option (List OutputRow)
  report : List Problem
  exitCode : Nat
  deriving DecidableEq, Repr

/-- The whole `make_scan` run over an already-materialized record batch:
the loop writes the staging sink; afterwards, when problems were recorded
the report is printed and the staging file is left behind while the final
path keeps its previous content, otherwise `os.replace(temp, output)`
atomically renames the staging file onto the final path. The script falls
off the end of `make_scan` in both branches, so the process exit code is 0
in both. -/
def make_scan (prevFinal : Option (List OutputRow)) (records : List RawRecord)
    (sample : Option Rat) (stream : Nat → Rat) : Except Fault RunOutcome :=
  match runRecords sample stream records 0 initState [] with
  | Except.error f => Except.error f
  | Except.ok (s, rows) =>
      if s.problems != [] then
        Except.ok { finalFile := prevFinal, tempFile := some rows,
                    report := s.problems, exitCode := 0 }
      else
        Except.ok { finalFile := some rows, tempFile := none,
                    report := [], exitCode := 0 }

/-- The problem report of a finished run; an aborted run prints nothing. -/
def reportOf (e : Except Fault RunOutcome) : List Problem :=
  match e with
  | Except.ok o => o.report
  | Except.error _ => []

/-- The staging-file content left behind by a run. -/
def tempOf (e : Except Fault RunOutcome) : Option (List OutputRow) :=
  match e with
  | Except.ok o => o.tempFile
  | Except.error _ => none

/-- The final-path content after a run. -/
def finalOf (e : Except Fault RunOutcome) : Option (List OutputRow) :=
  match e with
  | Except.ok o => o.finalFile
  | Except.error _ => none

/-- The process exit code: the script falls off the end of `make_scan`
(exit 0) unless an exception escapes, in which case the interpreter exits
nonzero. -/
def exitCodeOf (e : Except Fault RunOutcome) : Nat :=
  match e with
  | Except.ok o => o.exitCode
  | Except.error _ => 1

/-- Darwin Core CSV field under QUOTE_MINIMAL: quote when the field holds
the delimiter, the quote character, or a line-terminator character,
doubling embedded quotes. -/
def csvField (f : String) : String :=
  if f.data.any (fun c => c == ',' || c == '\"' || c == '\r' || c == '\n') then
    "\"" ++ (⟨f.data.foldr (fun c acc =>
      if c == '\"' then '\"' :: '\"' :: acc else c :: acc) []⟩ : String) ++ "\""
  else f

/-- Rows that will appear in the output CSV (`output_rows`), in order. -/
def output_rows : List String :=
  ["occurrenceID", "catalogNumber", "dataGeneralizations", "basisOfRecord",
   "individualCount", "sex", "lifeStage", "references", "recordedBy",
   "eventDate", "verbatimEventDate", "samplingProtocol", "country",
   "stateProvince", "locality", "decimalLatitude", "decimalLongitude",
   "identificationRemarks", "scientificName", "identificationQualifier",
   "occurrenceRemarks"]

/-- One data line of the output CSV: the row's fields in `output_rows`
order, comma-separated, CRLF-terminated; a missing qualifier becomes the
DictWriter restval, the empty string. -/
def renderRow (row : OutputRow) : String :=
  strIntercalate ","
    ([row.occurrenceID, row.catalogNumber, row.dataGeneralizations,
      row.basisOfRecord, toString row.individualCount, row.sex, row.lifeStage,
      row.references, row.recordedBy, row.eventDate, row.verbatimEventDate,
      row.samplingProtocol, row.country, row.stateProvince, row.locality,
      row.decimalLatitude, row.decimalLongitude, row.identificationRemarks,
      row.scientificName, row.identificationQualifier.getD "",
      row.occurrenceRemarks].map csvField) ++ "\r\n"

/-- The bytes of an output file: header line then one line per row. -/
def renderFile (rows : List OutputRow) : String :=
  strIntercalate "," output_rows ++ "\r\n"
    ++ (rows.map renderRow).foldl (fun a b => a ++ b) ""

/-- Modelled from the spec (section 4.5), for comparison with the filter
the code implements: exclude the record if it lacks geolocation data, or
any collection protocol is in the skip-protocols set, or any project is in
the skip-projects set, or the attributing provider tag is in the
skip-provider-tags set. -/
def specExcludePredicate (tags : List String) (r : RawRecord) : Bool :=
  r.geo_coords.isNone
    || r.collection_protocols.any (fun p => skip_protocols.contains p)
    || r.projects.any (fun p => skip_projects.contains p)
    || (tags != [] && skip_provider_tags.contains (tags.headD ""))

/-- Keys already claimed in the per-category dedup set for a Problem. -/
def keyRecorded (s : ScanState) (p : Problem) : Prop :=
  match p with
  | Problem.unexpectedTags ts _ => strIntercalate "," ts ∈ s.problem_tags
  | Problem.unknownFirstTerm t _ => t ∈ s.problem_first_species_terms
  | Problem.unknownThirdTerm t _ => t ∈ s.problem_third_species_terms

/-- Collector invariant: every recorded Problem has its key claimed in its
category's dedup set, and no two recorded Problems share a category-key
pair. -/
def CollectorInv (s : ScanState) : Prop :=
  (∀ p ∈ s.problems, keyRecorded s p) ∧ (s.problems.map catKey).Nodup

/-- A state reachable from `s` by recording zero or more Problems, all
carrying the record identifier `rid`; each per-record processing step only
moves the collector along this relation. -/
inductive ProblemStep (rid : String) (s : ScanState) : ScanState → Prop
  | refl : ProblemStep rid s s
  | step (t : ScanState) (p : Problem) :
      ProblemStep rid s t → p.rid = rid → ProblemStep rid s (recordProblem t p)

/-- Clean single-record batch: a record with a known species, geolocation
and no tags. -/
def goodRec : RawRecord :=
  { sample_id_s := "S1", species := ["Aedes aegypti"],
    geo_coords := some "1.5,2.5", sample_size_i := 3 }

/-- A record whose first species term is outside the genus vocabulary. -/
def badTermRec : RawRecord :=
  { sample_id_s := "S2", species := ["Unknownus foo"],
    geo_coords := some "1.5,2.5", sample_size_i := 3 }

/-- A record the filter discards (skip protocol) that also carries an
unexpected tag, so the tag step records a Problem before the discard. -/
def filteredTagProblemRec : RawRecord :=
  { sample_id_s := "S3", species := ["Aedes aegypti"],
    geo_coords := some "1.5,2.5", sample_size_i := 3,
    collection_protocols := ["BG-Counter trap catch"],
    tags_ss := some ["Mystery Org"] }

/-- A record lacking geolocation data. -/
def noGeoRec : RawRecord :=
  { sample_id_s := "S4", species := ["Aedes aegypti"],
    geo_coords := none, sample_size_i := 3 }

/-- A record whose coordinate string has no comma. -/
def noCommaRec : RawRecord :=
  { sample_id_s := "S5", species := ["Aedes aegypti"],
    geo_coords := some "12.5", sample_size_i := 3 }

/-- A record whose species designation tokenizes to nothing. -/
def emptySpeciesRec : RawRecord :=
  { sample_id_s := "S6", species := [""],
    geo_coords := some "1.5,2.5", sample_size_i := 3 }

/-- A record whose species designation is the lone rank marker "genus". -/
def loneMarkerRec : RawRecord :=
  { sample_id_s := "S7", species := ["genus"],
    geo_coords := some "1.5,2.5", sample_size_i := 3 }

/-- The decision stream that always draws 0. -/
def zeroStream : Nat → Rat := fun _ => 0

/-- The outcome of running the clean single-record batch. -/
def goodRunOutcome : RunOutcome :=
  (make_scan none [goodRec] none zeroStream).toOption.getD
    { finalFile := none, tempFile := none, report := [], exitCode := 0 }

/-- The collector state after the one-record run on `badTermRec`. -/
def badTermRunState : ScanState :=
  ((runRecords none zeroStream [badTermRec] 0 initState []).toOption.getD
    (initState, [])).1

/-- The staged rows after the one-record run on `badTermRec`. -/
def badTermRunRows : List OutputRow :=
  ((runRecords none zeroStream [badTermRec] 0 initState []).toOption.getD
    (initState, [])).2

/-- The collector state after processing `badTermRec` once. -/
def badTermProcState : ScanState :=
  ((processRecord initState badTermRec).toOption.getD (initState, none)).1

/-- The row written for `badTermRec`. -/
def badTermProcRow : Option OutputRow :=
  ((processRecord initState badTermRec).toOption.getD (initState, none)).2

/-- An all-empty placeholder row (used only as a `getD` fallback). -/
def blankRow : OutputRow :=
  { occurrenceID := "", catalogNumber := "", dataGeneralizations := "",
    basisOfRecord := "", individualCount := 0, sex := "", lifeStage := "",
    references := "", recordedBy := "", eventDate := "",
    verbatimEventDate := "", samplingProtocol := "", country := "",
    stateProvince := "", locality := "", decimalLatitude := "",
    decimalLongitude := "", identificationRemarks := "",
    scientificName := "", identificationQualifier := none,
    occurrenceRemarks := "" }

/-- The collector state after processing `goodRec` once. -/
def goodProcState : ScanState :=
  ((processRecord initState goodRec).toOption.getD (initState, none)).1

/-- The row written for `goodRec`. -/
def goodProcRow : OutputRow :=
  (((processRecord initState goodRec).toOption.getD (initState, none)).2).getD
    blankRow

/-! ### Theorems -/

/-- C7: the species extractor meets the three reference cases: a plain
two-term designation passes through; the rank marker "genus" is dropped
leaving "Culex pallens"; the group term "complex" leaves the name after two
terms and lands in the identification qualifier. -/
theorem c7_species_reference_cases :
    extractSpecies initState "R1" "Aedes aegypti" =
      Except.ok (initState, "Aedes aegypti", none)
    ∧ extractSpecies initState "R1" "genus Culex pallens" =
      Except.ok (initState, "Culex pallens", none)
    ∧ extractSpecies initState "R1" "Anopheles dirus complex" =
      Except.ok (initState, "Anopheles dirus", some "complex") :=
  ⟨rfl, rfl, rfl⟩

/-- C9: records with a comma-free coordinate string, an
empty-tokenization species designation, or a lone rank marker make the
pipeline raise an unhandled fault (IndexError) instead of recording a
Problem: extraction is not total over raw records. -/
theorem c9_extraction_not_total :
    make_scan none [noCommaRec] none zeroStream =
      Except.error (Fault.indexError "coordinates 1")
    ∧ make_scan none [emptySpeciesRec] none zeroStream =
      Except.error (Fault.indexError "species_terms 0")
    ∧ make_scan none [loneMarkerRec] none zeroStream =
      Except.error (Fault.indexError "species_terms 0") :=
  ⟨rfl, rfl, rfl⟩

/-- C1 counterexample: a run that records a Problem leaves the staging
file on disk — the claim's "the staging output file is deleted" fails. -/
theorem c1_staging_not_deleted_counterexample :
    tempOf (make_scan none [badTermRec] none zeroStream) ≠ none
    ∧ reportOf (make_scan none [badTermRec] none zeroStream) =
      [Problem.unknownFirstTerm "Unknownus" "S2"]
    ∧ finalOf (make_scan none [badTermRec] none zeroStream) = none := by
  refine ⟨?_, rfl, rfl⟩
  intro h
  exact absurd h (by decide)

/-- C1 amended: at end of run, a clean collector promotes the staging
rows to the final path and removes the staging file (rename semantics); a
dirty collector skips promotion, reports every recorded Problem, leaves
the final path untouched — and leaves the staging file in place rather
than deleting it. -/
theorem c1_commit_protocol (prevFinal : Option (List OutputRow))
    (records : List RawRecord) (sample : Option Rat) (stream : Nat → Rat)
    (out : RunOutcome)
    (h : make_scan prevFinal records sample stream = Except.ok out) :
    ∃ s rows, runRecords sample stream records 0 initState [] = Except.ok (s, rows)
      ∧ out.report = s.problems
      ∧ out.exitCode = 0
      ∧ (s.problems = [] → out.finalFile = some rows ∧ out.tempFile = none)
      ∧ (s.problems ≠ [] → out.finalFile = prevFinal ∧ out.tempFile = some rows) := by
  unfold make_scan at h
  match hr : runRecords sample stream records 0 initState [] with
  | Except.error f =>
      rw [hr] at h
      exact absurd h (by simp)
  | Except.ok (s, rows) =>
      rw [hr] at h
      refine ⟨s, rows, rfl, ?_⟩
      by_cases hp : s.problems = []
      · simp only [hp, bne_self_eq_false, Bool.false_eq_true, if_false,
          Except.ok.injEq] at h
        subst h
        exact ⟨hp.symm, rfl, fun _ => ⟨rfl, rfl⟩, fun hne => absurd hp hne⟩
      · have hb : (s.problems != []) = true := by
          simpa using hp
        simp only [hb, if_true, Except.ok.injEq] at h
        subst h
        exact ⟨rfl, rfl, fun he => absurd he hp, fun _ => ⟨rfl, rfl⟩⟩

/-- C1 witness: the amended commit protocol at the clean one-record batch. -/
theorem c1_commit_protocol_witness :
    ∃ s rows, runRecords none zeroStream [goodRec] 0 initState [] = Except.ok (s, rows)
      ∧ goodRunOutcome.report = s.problems
      ∧ goodRunOutcome.exitCode = 0
      ∧ (s.problems = [] → goodRunOutcome.finalFile = some rows
          ∧ goodRunOutcome.tempFile = none)
      ∧ (s.problems ≠ [] → goodRunOutcome.finalFile = none
          ∧ goodRunOutcome.tempFile = some rows) :=
  c1_commit_protocol none [goodRec] none zeroStream goodRunOutcome rfl

/-- C4 counterexample: a committing run and a problems-found run both
terminate with exit code 0 — the claim's distinct exit codes fail. -/
theorem c4_exit_codes_counterexample :
    reportOf (make_scan none [goodRec] none zeroStream) = []
    ∧ finalOf (make_scan none [goodRec] none zeroStream) ≠ none
    ∧ reportOf (make_scan none [badTermRec] none zeroStream) ≠ []
    ∧ exitCodeOf (make_scan none [goodRec] none zeroStream) = 0
    ∧ exitCodeOf (make_scan none [badTermRec] none zeroStream) = 0 := by
  refine ⟨rfl, ?_, ?_, rfl, rfl⟩
  · intro h; exact absurd h (by decide)
  · intro h; exact absurd h (by decide)

/-- C4 amended: every run of `make_scan` that terminates without an
uncaught exception exits with code 0, whether it committed or found
problems; commit versus rejection is observable only through the report
and the file effects. -/
theorem c4_exit_code_zero (prevFinal : Option (List OutputRow))
    (records : List RawRecord) (sample : Option Rat) (stream : Nat → Rat)
    (out : RunOutcome)
    (h : make_scan prevFinal records sample stream = Except.ok out) :
    out.exitCode = 0 := by
  unfold make_scan at h
  match hr : runRecords sample stream records 0 initState [] with
  | Except.error f =>
      rw [hr] at h
      exact absurd h (by simp)
  | Except.ok (s, rows) =>
      rw [hr] at h
      by_cases hp : (s.problems != []) = true
      · simp only [hp, if_true, Except.ok.injEq] at h
        subst h; rfl
      · simp only [hp, if_false] at h
        simp only [Bool.not_eq_true] at hp
        rw [if_neg (by simp [hp])] at h
        cases h
        rfl

/-- C4 witness: exit code 0 at the clean one-record batch. -/
theorem c4_exit_code_zero_witness : goodRunOutcome.exitCode = 0 :=
  c4_exit_code_zero none [goodRec] none zeroStream goodRunOutcome rfl

/-- Helper: the tag step never touches the species-term dedup sets, and
either leaves the problems list alone or appends one unexpected-tags
Problem carrying the current record's identifier. -/
theorem processTags_sets (s : ScanState) (r : RawRecord) :
    (processTags s r).2.problem_first_species_terms = s.problem_first_species_terms
    ∧ (processTags s r).2.problem_third_species_terms = s.problem_third_species_terms
    ∧ ((processTags s r).2.problems = s.problems ∨
       ∃ ts, (processTags s r).2.problems =
         s.problems ++ [Problem.unexpectedTags ts r.sample_id_s]) := by
  unfold processTags
  cases r.tags_ss with
  | none => exact ⟨rfl, rfl, Or.inl rfl⟩
  | some ts =>
      dsimp only
      split
      · unfold recordProblem
        dsimp only
        split
        · exact ⟨rfl, rfl, Or.inl rfl⟩
        · exact ⟨rfl, rfl, Or.inr ⟨_, rfl⟩⟩
      · exact ⟨rfl, rfl, Or.inl rfl⟩

/-- Helper: one loop iteration skips the record (returns no row) exactly
when the discard condition fires, and then the state is the tag step's. -/
theorem processRecord_none_iff (s : ScanState) (r : RawRecord) (s2 : ScanState) :
    processRecord s r = Except.ok (s2, none) ↔
      (filterCondition (processTags s r).1 r = true ∧ s2 = (processTags s r).2) := by
  unfold processRecord
  dsimp only
  by_cases hf : filterCondition (processTags s r).1 r = true
  · rw [if_pos hf]
    simp [hf, eq_comm]
  · rw [if_neg hf]
    constructor
    · intro h
      exfalso
      repeat (any_goals (split at h))
      all_goals simp_all
    · rintro ⟨hc, -⟩
      exact absurd hc hf

/-- C2 counterexample: a record the filter discards (skip protocol) that
carries an unexpected tag still records a Problem, because the tag step
runs before the filter — the claim that discarded records never pollute
the Problem Collector fails. -/
theorem c2_filtered_record_records_problem_counterexample :
    processRecord initState filteredTagProblemRec =
      Except.ok ({ problems := [Problem.unexpectedTags ["Mystery Org"] "S3"],
                   problem_tags := ["Mystery Org"],
                   problem_first_species_terms := [],
                   problem_third_species_terms := [] }, none)
    ∧ ([Problem.unexpectedTags ["Mystery Org"] "S3"] : List Problem) ≠ [] :=
  ⟨rfl, by decide⟩

/-- C2 amended: the filter is evaluated before the species extractor, so a
discarded record never records a species-term Problem; but the tag step
runs before the filter, so a discarded record may still record one
unexpected-tags Problem. -/
theorem c2_filter_before_species_extractor (s : ScanState) (r : RawRecord)
    (s2 : ScanState) (h : processRecord s r = Except.ok (s2, none)) :
    s2.problem_first_species_terms = s.problem_first_species_terms
    ∧ s2.problem_third_species_terms = s.problem_third_species_terms
    ∧ (s2.problems = s.problems ∨
       ∃ ts, s2.problems = s.problems ++ [Problem.unexpectedTags ts r.sample_id_s]) := by
  obtain ⟨-, hs⟩ := (processRecord_none_iff s r s2).1 h
  subst hs
  exact processTags_sets s r

/-- C2 witness: the amended statement at the discarded tag-problem record. -/
theorem c2_filter_before_species_extractor_witness :
    ({ problems := [Problem.unexpectedTags ["Mystery Org"] "S3"],
       problem_tags := ["Mystery Org"],
       problem_first_species_terms := [],
       problem_third_species_terms := [] } : ScanState).problem_first_species_terms
        = initState.problem_first_species_terms
    ∧ ({ problems := [Problem.unexpectedTags ["Mystery Org"] "S3"],
         problem_tags := ["Mystery Org"],
         problem_first_species_terms := [],
         problem_third_species_terms := [] } : ScanState).problem_third_species_terms
        = initState.problem_third_species_terms
    ∧ (({ problems := [Problem.unexpectedTags ["Mystery Org"] "S3"],
          problem_tags := ["Mystery Org"],
          problem_first_species_terms := [],
          problem_third_species_terms := [] } : ScanState).problems = initState.problems ∨
       ∃ ts, ({ problems := [Problem.unexpectedTags ["Mystery Org"] "S3"],
                problem_tags := ["Mystery Org"],
                problem_first_species_terms := [],
                problem_third_species_terms := [] } : ScanState).problems
          = initState.problems
            ++ [Problem.unexpectedTags ts filteredTagProblemRec.sample_id_s]) :=
  c2_filter_before_species_extractor initState filteredTagProblemRec _ rfl

/-- Helper: the discard condition in Prop form — first remaining tag in
the skip-provider-tags set, or some collection protocol in the
skip-protocols set, or some project in the skip-projects set. -/
theorem filterCondition_iff (tags : List String) (r : RawRecord) :
    filterCondition tags r = true ↔
      ((tags ≠ [] ∧ tags.headD "" ∈ skip_provider_tags)
       ∨ (∃ p ∈ r.collection_protocols, p ∈ skip_protocols)
       ∨ (∃ q ∈ r.projects, q ∈ skip_projects)) := by
  simp [filterCondition, List.any_eq_true]
  exact or_assoc

/-- C3 amended: one loop iteration discards a record (skips it without
writing a row) iff the attributing provider tag is in the
skip-provider-tags set, or some collection protocol is in the
skip-protocols set, or some project is in the skip-projects set. The
spec's condition (a) — lacking geolocation data — is not part of the
implemented filter (see the counterexample: such a record faults instead). -/
theorem c3_filter_characterization (s : ScanState) (r : RawRecord) :
    (∃ s2, processRecord s r = Except.ok (s2, none)) ↔
      (((processTags s r).1 ≠ [] ∧ (processTags s r).1.headD "" ∈ skip_provider_tags)
       ∨ (∃ p ∈ r.collection_protocols, p ∈ skip_protocols)
       ∨ (∃ q ∈ r.projects, q ∈ skip_projects)) := by
  constructor
  · rintro ⟨s2, h⟩
    exact (filterCondition_iff (processTags s r).1 r).1
      ((processRecord_none_iff s r s2).1 h).1
  · intro hc
    exact ⟨(processTags s r).2, (processRecord_none_iff s r _).2
      ⟨(filterCondition_iff (processTags s r).1 r).2 hc, rfl⟩⟩

/-- C3 counterexample: a record lacking geolocation data satisfies the
spec's exclusion predicate, but the code does not exclude it — processing
it raises a KeyError at the coordinates step instead. -/
theorem c3_no_geodata_counterexample :
    specExcludePredicate (processTags initState noGeoRec).1 noGeoRec = true
    ∧ processRecord initState noGeoRec = Except.error (Fault.keyError "geo_coords") :=
  ⟨rfl, rfl⟩

/-- Helper: the dedup sets never shrink, so claimed keys stay claimed. -/
theorem recordProblem_keyRecorded_mono (s : ScanState) (p q : Problem)
    (h : keyRecorded s q) : keyRecorded (recordProblem s p) q := by
  cases p <;> cases q <;>
    unfold recordProblem at * <;>
    simp only [keyRecorded] at h ⊢ <;>
    split <;>
    first
      | exact h
      | exact List.mem_cons_of_mem _ h

/-- Helper: recording either leaves the state alone (key already claimed)
or appends the Problem and claims its key. -/
theorem recordProblem_eq (s : ScanState) (p : Problem) :
    (keyRecorded s p ∧ recordProblem s p = s)
    ∨ (¬ keyRecorded s p
       ∧ (recordProblem s p).problems = s.problems ++ [p]
       ∧ keyRecorded (recordProblem s p) p) := by
  cases p with
  | unexpectedTags ts i =>
      unfold recordProblem keyRecorded
      dsimp only
      split
      next hc => exact Or.inl ⟨by simpa using hc, rfl⟩
      next hc => exact Or.inr ⟨by simpa using hc, rfl, List.mem_cons_self _ _⟩
  | unknownFirstTerm t i =>
      unfold recordProblem keyRecorded
      dsimp only
      split
      next hc => exact Or.inl ⟨by simpa using hc, rfl⟩
      next hc => exact Or.inr ⟨by simpa using hc, rfl, List.mem_cons_self _ _⟩
  | unknownThirdTerm t i =>
      unfold recordProblem keyRecorded
      dsimp only
      split
      next hc => exact Or.inl ⟨by simpa using hc, rfl⟩
      next hc => exact Or.inr ⟨by simpa using hc, rfl, List.mem_cons_self _ _⟩

/-- Helper: a claimed key transfers along equal category-key pairs. -/
theorem keyRecorded_congr (s : ScanState) (x p : Problem)
    (h : catKey x = catKey p) (hx : keyRecorded s x) : keyRecorded s p := by
  cases x <;> cases p <;>
    simp only [catKey, Problem.category, Problem.dedupKey, Prod.mk.injEq] at h <;>
    first
      | exact absurd h.1 (by decide)
      | (simp only [keyRecorded] at hx ⊢; rw [← h.2]; exact hx)

/-- Helper: recording preserves the collector invariant. -/
theorem recordProblem_inv (s : ScanState) (p : Problem) (h : CollectorInv s) :
    CollectorInv (recordProblem s p) := by
  rcases recordProblem_eq s p with ⟨-, heq⟩ | ⟨hk, hpr, hkr⟩
  · rw [heq]; exact h
  · constructor
    · intro q hq
      rw [hpr] at hq
      rcases List.mem_append.1 hq with hq | hq
      · exact recordProblem_keyRecorded_mono s p q (h.1 q hq)
      · rw [List.mem_singleton.1 hq]
        exact hkr
    · rw [hpr, List.map_append, List.nodup_append]
      refine ⟨h.2, List.nodup_singleton _, ?_⟩
      intro k hk1 hk2
      simp only [List.map_cons, List.map_nil, List.mem_singleton] at hk2
      rcases List.mem_map.1 hk1 with ⟨x, hx, hxk⟩
      exact hk (keyRecorded_congr s x p (by rw [hxk, hk2]) (h.1 x hx))

/-- Helper: recording-step chains only append to the problems list. -/
theorem ProblemStep.problems_prefix {rid : String} {s t : ScanState}
    (h : ProblemStep rid s t) : ∃ l, t.problems = s.problems ++ l := by
  induction h with
  | refl => exact ⟨[], by simp⟩
  | step v p hstep hp ih =>
      rcases ih with ⟨l, hl⟩
      rcases recordProblem_eq v p with ⟨-, heq⟩ | ⟨-, hpr, -⟩
      · rw [heq]; exact ⟨l, hl⟩
      · exact ⟨l ++ [p], by rw [hpr, hl, List.append_assoc]⟩

/-- Helper: recording-step chains preserve the collector invariant. -/
theorem ProblemStep.inv {rid : String} {s t : ScanState}
    (hs : CollectorInv s) (h : ProblemStep rid s t) : CollectorInv t := by
  induction h with
  | refl => exact hs
  | step v p hstep hp ih => exact recordProblem_inv v p ih

/-- Helper: every Problem added along a recording-step chain carries the
chain's record identifier and a category-key pair fresh for the start
state. -/
theorem ProblemStep.new_mem {rid : String} {s t : ScanState}
    (hs : CollectorInv s) (h : ProblemStep rid s t) :
    ∀ p ∈ t.problems, p ∈ s.problems
      ∨ (p.rid = rid ∧ catKey p ∉ s.problems.map catKey) := by
  induction h with
  | refl => exact fun p hp => Or.inl hp
  | step v p hstep hp ih =>
      intro q hq
      rcases recordProblem_eq v p with ⟨-, heq⟩ | ⟨hk, hpr, -⟩
      · rw [heq] at hq
        exact ih q hq
      · rw [hpr] at hq
        rcases List.mem_append.1 hq with hq | hq
        · exact ih q hq
        · rw [List.mem_singleton.1 hq]
          refine Or.inr ⟨hp, ?_⟩
          intro hmem
          rcases List.mem_map.1 hmem with ⟨x, hx, hxk⟩
          have hvx : keyRecorded v x := by
            rcases hstep.problems_prefix with ⟨l, hl⟩
            exact (hstep.inv hs).1 x (by rw [hl]; exact List.mem_append_left _ hx)
          exact hk (keyRecorded_congr v x p hxk hvx)

/-- Helper: recording-step chains compose. -/
theorem ProblemStep.trans {rid : String} {s t u : ScanState}
    (h1 : ProblemStep rid s t) (h2 : ProblemStep rid t u) : ProblemStep rid s u := by
  induction h2 with
  | refl => exact h1
  | step v p hstep hp ih => exact ProblemStep.step v p ih hp

/-- Helper: the empty collector satisfies the invariant. -/
theorem initState_inv : CollectorInv initState :=
  ⟨fun p hp => absurd hp (List.not_mem_nil p), List.nodup_nil⟩

/-- Helper: the tag step is a recording-step chain for the current record. -/
theorem processTags_step (s : ScanState) (r : RawRecord) :
    ProblemStep r.sample_id_s s (processTags s r).2 := by
  unfold processTags
  cases r.tags_ss with
  | none => exact ProblemStep.refl
  | some ts =>
      dsimp only
      split
      · exact ProblemStep.step s
          (Problem.unexpectedTags (ts.filter (fun t => !(remove_tags.contains t)))
            r.sample_id_s)
          ProblemStep.refl rfl
      · exact ProblemStep.refl

/-- Helper: a successful species extraction is a recording-step chain for
the current record. -/
theorem extractSpecies_step (s : ScanState) (rid raw : String)
    (s2 : ScanState) (name : String) (q : Option String)
    (h : extractSpecies s rid raw = Except.ok (s2, name, q)) :
    ProblemStep rid s s2 := by
  unfold extractSpecies at h
  repeat (any_goals (split at h))
  all_goals simp at h
  all_goals obtain ⟨h1, -⟩ := h
  all_goals subst h1
  all_goals
    first
      | exact ProblemStep.refl
      | exact ProblemStep.step _ _ ProblemStep.refl rfl
      | exact ProblemStep.step _ _ (ProblemStep.step _ _ ProblemStep.refl rfl) rfl

/-- Helper: one successful loop iteration is a recording-step chain for
the current record: every Problem it records carries that record's id. -/
theorem processRecord_step (s : ScanState) (r : RawRecord)
    (s2 : ScanState) (o : Option OutputRow)
    (h : processRecord s r = Except.ok (s2, o)) :
    ProblemStep r.sample_id_s s s2 := by
  unfold processRecord at h
  dsimp only at h
  by_cases hf : filterCondition (processTags s r).1 r = true
  · rw [if_pos hf] at h
    simp only [Except.ok.injEq, Prod.mk.injEq] at h
    rw [← h.1]
    exact processTags_step s r
  · rw [if_neg hf] at h
    have htags := processTags_step s r
    cases hsp : r.species with
    | nil =>
        rw [hsp] at h
        exact absurd h (by simp)
    | cons raw tl =>
        simp only [hsp] at h
        cases hex : extractSpecies (processTags s r).2 r.sample_id_s raw with
        | error f =>
            rw [hex] at h
            exact absurd h (by simp)
        | ok val =>
            obtain ⟨sE, nm, ql⟩ := val
            simp only [hex] at h
            have hE := htags.trans (extractSpecies_step _ _ _ _ _ _ hex)
            have hs2 : s2 = sE := by
              repeat (any_goals (split at h))
              all_goals simp at h
              all_goals exact h.1.symm
            rw [hs2]
            exact hE

/-- Helper: the record loop preserves the collector invariant. -/
theorem runRecords_inv (sample : Option Rat) (stream : Nat → Rat)
    (records : List RawRecord) :
    ∀ (i : Nat) (s : ScanState) (rows : List OutputRow)
      (s2 : ScanState) (rows2 : List OutputRow),
      CollectorInv s →
      runRecords sample stream records i s rows = Except.ok (s2, rows2) →
      CollectorInv s2 := by
  induction records with
  | nil =>
      intro i s rows s2 rows2 hs h
      unfold runRecords at h
      simp only [Except.ok.injEq, Prod.mk.injEq] at h
      rw [← h.1]
      exact hs
  | cons r rest ih =>
      intro i s rows s2 rows2 hs h
      unfold runRecords at h
      split at h
      · exact ih _ _ _ _ _ hs h
      · split at h
        next f heq => exact absurd h (by simp)
        next sE heq => exact ih _ _ _ _ _ ((processRecord_step s r sE none heq).inv hs) h
        next sE row heq =>
          exact ih _ _ _ _ _ ((processRecord_step s r sE (some row) heq).inv hs) h

/-- C5: per run, at most one Problem is recorded per distinct offending
value within each category — the final problems list (which is the
report, one entry per Problem) has pairwise-distinct category-key pairs —
and any Problem newly recorded while processing a record carries that
record's identifier and a category-key pair no earlier Problem used, i.e.
the identifier of the record where the offending value was first observed. -/
theorem c5_problem_dedup :
    (∀ (records : List RawRecord) (sample : Option Rat) (stream : Nat → Rat)
       (s : ScanState) (rows : List OutputRow),
       runRecords sample stream records 0 initState [] = Except.ok (s, rows) →
       (s.problems.map catKey).Nodup)
    ∧ (∀ (s : ScanState) (r : RawRecord) (s2 : ScanState) (o : Option OutputRow)
         (p : Problem),
         CollectorInv s → processRecord s r = Except.ok (s2, o) →
         p ∈ s2.problems → p ∉ s.problems →
         p.rid = r.sample_id_s ∧ catKey p ∉ s.problems.map catKey) := by
  constructor
  · intro records sample stream s rows h
    exact (runRecords_inv sample stream records 0 initState [] s rows initState_inv h).2
  · intro s r s2 o p hs hproc hp hnp
    rcases (processRecord_step s r s2 o hproc).new_mem hs p hp with h | h
    · exact absurd h hnp
    · exact h

/-- C5 witness: the dedup conclusion at the one-record `badTermRec` run,
and the first-observation conclusion at its processing step. -/
theorem c5_problem_dedup_witness :
    (badTermRunState.problems.map catKey).Nodup
    ∧ (Problem.unknownFirstTerm "Unknownus" "S2").rid = badTermRec.sample_id_s
    ∧ catKey (Problem.unknownFirstTerm "Unknownus" "S2")
        ∉ initState.problems.map catKey :=
  ⟨c5_problem_dedup.1 [badTermRec] none zeroStream badTermRunState badTermRunRows rfl,
   c5_problem_dedup.2 initState badTermRec badTermProcState badTermProcRow
     (Problem.unknownFirstTerm "Unknownus" "S2") initState_inv rfl
     (by decide) (by decide)⟩

/-- Helper: the loop consults the decision stream once per record, at the
record's input position — runs agree whenever the streams agree on the
consumed positions. -/
theorem runRecords_stream_agree (sample : Option Rat) (s1 s2 : Nat → Rat)
    (records : List RawRecord) :
    ∀ (i : Nat) (st : ScanState) (rows : List OutputRow),
      (∀ j, i ≤ j → j < i + records.length → s1 j = s2 j) →
      runRecords sample s1 records i st rows
        = runRecords sample s2 records i st rows := by
  induction records with
  | nil =>
      intro i st rows hag
      rfl
  | cons r rest ih =>
      intro i st rows hag
      unfold runRecords
      have hi : s1 i = s2 i := hag i (le_refl i) (by simp)
      rw [hi]
      have hrest : ∀ j, i + 1 ≤ j → j < (i + 1) + rest.length → s1 j = s2 j := by
        intro j h1 h2
        refine hag j (by omega) ?_
        simp only [List.length_cons]
        omega
      split
      · exact ih (i + 1) st rows hrest
      · split
        · rfl
        · exact ih (i + 1) _ _ hrest
        · exact ih (i + 1) _ _ hrest

/-- C6: the run outcome — and hence the rendered output bytes — is a
deterministic function of the input batch and the sampling decision
stream: two runs over the same records whose streams agree at the one
position consumed per record (the record's input index) produce equal
outcomes, so identical input and identical seed give byte-identical
output. -/
theorem c6_deterministic_output (prevFinal : Option (List OutputRow))
    (records : List RawRecord) (sample : Option Rat) (s1 s2 : Nat → Rat)
    (h : ∀ j, j < records.length → s1 j = s2 j) :
    make_scan prevFinal records sample s1 = make_scan prevFinal records sample s2
    ∧ (finalOf (make_scan prevFinal records sample s1)).map renderFile
      = (finalOf (make_scan prevFinal records sample s2)).map renderFile := by
  have heq : runRecords sample s1 records 0 initState []
      = runRecords sample s2 records 0 initState [] :=
    runRecords_stream_agree sample s1 s2 records 0 initState []
      (fun j _ hj => h j (by simpa using hj))
  have hms : make_scan prevFinal records sample s1
      = make_scan prevFinal records sample s2 := by
    unfold make_scan
    rw [heq]
  exact ⟨hms, by rw [hms]⟩

/-- C6 witness: run equality at the one-record batch under two streams
agreeing on the single consumed position. -/
theorem c6_deterministic_output_witness :
    make_scan none [goodRec] none zeroStream
      = make_scan none [goodRec] none (fun j => if j < 1 then 0 else 1)
    ∧ (finalOf (make_scan none [goodRec] none zeroStream)).map renderFile
      = (finalOf (make_scan none [goodRec] none
          (fun j => if j < 1 then 0 else 1))).map renderFile :=
  c6_deterministic_output none [goodRec] none zeroStream
    (fun j => if j < 1 then 0 else 1) (by decide)

/-- Helper: recording never removes problems already recorded. -/
theorem recordProblem_mem_mono (s : ScanState) (p q : Problem)
    (h : q ∈ s.problems) : q ∈ (recordProblem s p).problems := by
  rcases recordProblem_eq s p with ⟨-, heq⟩ | ⟨-, hpr, -⟩
  · rw [heq]; exact h
  · rw [hpr]; exact List.mem_append_left _ h

/-- Helper: after recording an unknown-first-term Problem, the term is
claimed in the first-term dedup set. -/
theorem mem_first_recordProblem (s : ScanState) (t rid : String) :
    t ∈ (recordProblem s
      (Problem.unknownFirstTerm t rid)).problem_first_species_terms := by
  unfold recordProblem
  dsimp only
  split
  next hc => simpa using hc
  next hc => exact List.mem_cons_self _ _

/-- Helper: recording a third-term Problem leaves the first-term dedup set
unchanged. -/
theorem third_recordProblem_first_set (s : ScanState) (u rid : String) :
    (recordProblem s
        (Problem.unknownThirdTerm u rid)).problem_first_species_terms
      = s.problem_first_species_terms := by
  unfold recordProblem
  dsimp only
  split <;> rfl

/-- Helper: recording an unknown-first-term Problem whose term was not yet
claimed puts that Problem into the problems list. -/
theorem mem_problems_recordProblem_first (s : ScanState) (t rid : String)
    (hnot : t ∉ s.problem_first_species_terms) :
    Problem.unknownFirstTerm t rid
      ∈ (recordProblem s (Problem.unknownFirstTerm t rid)).problems := by
  rcases recordProblem_eq s (Problem.unknownFirstTerm t rid)
    with ⟨hk, -⟩ | ⟨-, hpr, -⟩
  · exact absurd hk hnot
  · rw [hpr]
    exact List.mem_append_right _ (List.mem_singleton_self _)

/-- Helper: on a designation whose first term (after rank-marker drop) is
outside the genus vocabulary, the species extractor still succeeds, claims
the term in the dedup set (recording the Problem when the term is new),
and uses the term as the leading genus of the scientific name. -/
theorem extractSpecies_unknown_first (s : ScanState) (rid raw t : String)
    (rest : List String)
    (hterms : markerDropped (pySplitWhite (applyTransform raw)) = t :: rest)
    (hvalid : valid_first_species_terms.contains t = false) :
    ∃ s2 name q, extractSpecies s rid raw = Except.ok (s2, name, q)
      ∧ t ∈ s2.problem_first_species_terms
      ∧ (∃ tail, name = t ++ tail)
      ∧ (t ∉ s.problem_first_species_terms →
          Problem.unknownFirstTerm t rid ∈ s2.problems) := by
  unfold extractSpecies
  rw [hterms]
  dsimp only
  rw [if_neg (by rw [hvalid]; simp)]
  rcases rest with _ | ⟨second, _ | ⟨third, rest3⟩⟩
  · exact ⟨_, t, none, rfl, mem_first_recordProblem s t rid,
      ⟨"", by simp⟩, fun hn => mem_problems_recordProblem_first s t rid hn⟩
  · exact ⟨_, t ++ " " ++ second, none, rfl, mem_first_recordProblem s t rid,
      ⟨" " ++ second, by rw [String.append_assoc]⟩,
      fun hn => mem_problems_recordProblem_first s t rid hn⟩
  · dsimp only
    by_cases h3 : subspecies_terms.contains third = true
    · rw [if_pos h3]
      by_cases h4 : (rest3.length == 1) = true
      · rw [if_pos h4]
        exact ⟨_, t ++ " " ++ second ++ " " ++ third,
          some ("" ++ rest3.headD ""), rfl, mem_first_recordProblem s t rid,
          ⟨" " ++ second ++ " " ++ third, by simp [String.append_assoc]⟩,
          fun hn => mem_problems_recordProblem_first s t rid hn⟩
      · rw [if_neg h4]
        exact ⟨_, t ++ " " ++ second ++ " " ++ third, none, rfl,
          mem_first_recordProblem s t rid,
          ⟨" " ++ second ++ " " ++ third, by simp [String.append_assoc]⟩,
          fun hn => mem_problems_recordProblem_first s t rid hn⟩
    · rw [if_neg h3]
      by_cases h3b : group_terms.contains third = true
      · rw [if_pos h3b]
        by_cases h4 : (rest3.length == 1) = true
        · rw [if_pos h4]
          exact ⟨_, t ++ " " ++ second, some (third ++ " " ++ rest3.headD ""),
            rfl, mem_first_recordProblem s t rid,
            ⟨" " ++ second, by rw [String.append_assoc]⟩,
            fun hn => mem_problems_recordProblem_first s t rid hn⟩
        · rw [if_neg h4]
          exact ⟨_, t ++ " " ++ second, some third, rfl,
            mem_first_recordProblem s t rid,
            ⟨" " ++ second, by rw [String.append_assoc]⟩,
            fun hn => mem_problems_recordProblem_first s t rid hn⟩
      · rw [if_neg h3b]
        by_cases h4 : (rest3.length == 1) = true
        · rw [if_pos h4]
          refine ⟨_, t ++ " " ++ second, some ("" ++ rest3.headD ""), rfl, ?_,
            ⟨" " ++ second, by rw [String.append_assoc]⟩, ?_⟩
          · rw [third_recordProblem_first_set]
            exact mem_first_recordProblem s t rid
          · intro hn
            exact recordProblem_mem_mono _ _ _
              (mem_problems_recordProblem_first s t rid hn)
        · rw [if_neg h4]
          refine ⟨_, t ++ " " ++ second, none, rfl, ?_,
            ⟨" " ++ second, by rw [String.append_assoc]⟩, ?_⟩
          · rw [third_recordProblem_first_set]
            exact mem_first_recordProblem s t rid
          · intro hn
            exact recordProblem_mem_mono _ _ _
              (mem_problems_recordProblem_first s t rid hn)

/-- C8: a record whose species designation's first term (after rank-marker
removal) is outside the genus vocabulary is not aborted: the loop still
writes its row, the term is claimed in the dedup set (with the Problem in
the list whenever the term is new for the run), and the output
scientificName starts with that very term as the genus. The record is
assumed to reach the extractors (not filtered) and to be otherwise
processable (well-formed coordinates, nonempty citation list from the
default filling). -/
theorem c8_unknown_first_term_flagged_not_aborted
    (s : ScanState) (r : RawRecord) (raw t : String)
    (speciesTl rest : List String) (g c0 c1 : String) (cs : List String)
    (cite0 : String) (citesTl : List String)
    (hsp : r.species = raw :: speciesTl)
    (hterms : markerDropped (pySplitWhite (applyTransform raw)) = t :: rest)
    (hvalid : valid_first_species_terms.contains t = false)
    (hf : filterCondition (processTags s r).1 r = false)
    (hgeo : r.geo_coords = some g)
    (hcoords : pySplitComma g = c0 :: c1 :: cs)
    (hcit : r.exp_citations_ss = cite0 :: citesTl) :
    ∃ s2 row, processRecord s r = Except.ok (s2, some row)
      ∧ t ∈ s2.problem_first_species_terms
      ∧ (∃ tail, row.scientificName = t ++ tail)
      ∧ (t ∉ s.problem_first_species_terms →
          Problem.unknownFirstTerm t r.sample_id_s ∈ s2.problems) := by
  obtain ⟨sE, name, q, hex, hmem, htail, hprob⟩ :=
    extractSpecies_unknown_first (processTags s r).2 r.sample_id_s raw t rest
      hterms hvalid
  unfold processRecord
  dsimp only
  rw [if_neg (by rw [hf]; simp)]
  simp only [hsp, hex, hgeo, hcoords, hcit]
  refine ⟨sE, _, rfl, hmem, ?_, ?_⟩
  · exact htail
  · intro hn
    refine hprob ?_
    rw [(processTags_sets s r).1]
    exact hn

/-- C8 witness: the statement at `badTermRec`, whose first term
"Unknownus" is outside the genus vocabulary. -/
theorem c8_unknown_first_term_flagged_not_aborted_witness :
    ∃ s2 row, processRecord initState badTermRec = Except.ok (s2, some row)
      ∧ "Unknownus" ∈ s2.problem_first_species_terms
      ∧ (∃ tail, row.scientificName = "Unknownus" ++ tail)
      ∧ ("Unknownus" ∉ initState.problem_first_species_terms →
          Problem.unknownFirstTerm "Unknownus" badTermRec.sample_id_s
            ∈ s2.problems) :=
  c8_unknown_first_term_flagged_not_aborted initState badTermRec
    "Unknownus foo" "Unknownus" [] ["foo"] "1.5,2.5" "1.5" "2.5" [] "" []
    rfl rfl rfl rfl rfl rfl rfl

/-- C10: for every record that reaches the extractors and is written, the
identificationRemarks field is the ';'-join of exactly those entries of
the record's protocols list that lie in the valid-protocols vocabulary, in
input order; and the protocols list is otherwise inert — replacing it
changes nothing about the outcome (in particular no Problem is ever
recorded for out-of-vocabulary protocol entries) except that very field. -/
theorem c10_identification_remarks :
    (∀ (s : ScanState) (r : RawRecord) (s2 : ScanState) (row : OutputRow),
       processRecord s r = Except.ok (s2, some row) →
       row.identificationRemarks
         = strIntercalate ";"
             (r.protocols.filter (fun p => valid_protocols.contains p)))
    ∧ (∀ (s : ScanState) (r : RawRecord) (ps : List String),
        processRecord s { r with protocols := ps }
          = Except.map (fun v => (v.1, v.2.map (fun row =>
              { row with identificationRemarks := (strIntercalate ";"
                  (ps.filter (fun p => valid_protocols.contains p))) })))
            (processRecord s r)) := by
  constructor
  · intro s r s2 row h
    unfold processRecord at h
    dsimp only at h
    repeat (any_goals (split at h))
    all_goals simp at h
    all_goals obtain ⟨-, hrow⟩ := h
    all_goals rw [← hrow]
    all_goals simp
  · intro s r ps
    cases r
    unfold processRecord processTags filterCondition
    dsimp only
    repeat (any_goals split)
    all_goals simp_all [Except.map]

/-- C10 witness: the remarks formula at the processed `goodRec` row, and
protocol-noninterference at a concrete replacement protocols list. -/
theorem c10_identification_remarks_witness :
    goodProcRow.identificationRemarks
      = strIntercalate ";"
          (goodRec.protocols.filter (fun p => valid_protocols.contains p))
    ∧ processRecord initState { goodRec with protocols := ["by size", "odd"] }
        = Except.map (fun v => (v.1, v.2.map (fun row =>
            { row with identificationRemarks := (strIntercalate ";"
                ((["by size", "odd"] : List String).filter
                  (fun p => valid_protocols.contains p))) })))
          (processRecord initState goodRec) :=
  ⟨c10_identification_remarks.1 initState goodRec goodProcState goodProcRow rfl,
   c10_identification_remarks.2 initState goodRec ["by size", "odd"]⟩

/-- C3 witness: the characterization applied at the skip-protocol record,
whose protocol "BG-Counter trap catch" is in the skip set. -/
theorem c3_filter_characterization_witness :
    ∃ s2, processRecord initState filteredTagProblemRec
      = Except.ok (s2, none) :=
  (c3_filter_characterization initState filteredTagProblemRec).2
    (Or.inr (Or.inl ⟨"BG-Counter trap catch", by decide, by decide⟩))
